import Mathlib

/-!
Shallow embedding of the order-construction, validation and response-normalization
core of `binance_bot.py` (class `BinanceBot`), together with proofs of the
testable properties of the specification.

Modelling conventions:
* Python floats become `ℚ`: every comparison in the source is against `0`,
  where rational and binary floating-point arithmetic agree.
* The external `binance` client is an explicit environment (`Env`): each
  client method the core calls is a field; a fallible fetch is an `Option`
  (`none` = the call raised), and `futures_create_order` maps the request
  parameters to an `ExchangeOutcome` describing what the call did (returned
  a payload, or raised one of the exception types the source distinguishes).
* Python dict payloads become association lists `List (String × Value)`;
  a `d[k]` access that can raise `KeyError` becomes an `Option`-valued
  lookup whose `none` case flows to the enclosing `except` handler, exactly
  as the `KeyError` does in the source.
* `logger.info` / `logger.error` lines become structured `LogLine` values
  carrying exactly the data the corresponding f-string interpolates; the
  return value of an operation together with its log trail, the number of
  catalog fetches and the outgoing exchange calls forms an `ExecResult`.
* `str.upper` becomes `pyUpper`, a structural ASCII upper-casing map (the
  inputs of interest are ASCII, where Python and ASCII upper-casing agree).
-/

/-- Python `str.upper` on one ASCII character. -/
def pyUpperChar (c : Char) : Char :=
  if c.isLower then Char.ofNat (c.toNat - 32) else c

/-- Python `str.upper` (ASCII): upper-case every character. -/
def pyUpper (s : String) : String := ⟨s.data.map pyUpperChar⟩

/-- A Python value as it appears in the request/response dicts of the
modelled code: strings and numbers are the only shapes stored. -/
inductive Value where
  | str (s : String)
  | num (q : ℚ)
  | int (n : Int)
deriving DecidableEq, Repr

/-- Request or response payload: a Python dict as an association list. -/
abbrev Params := List (String × Value)

/-- `d[k]` / `k in d`: first binding of `k` in the dict, if any. -/
def dictGet (d : Params) (k : String) : Option Value :=
  match d with
  | [] => none
  | (k₀, v) :: rest => if k₀ = k then some v else dictGet rest k

/-- `str(e)` of the Python exceptions the handlers interpolate:
`KeyError(k)` prints the quoted key, `BinanceAPIException` prints its
exchange `code` and `message`, `BinanceRequestException` its message,
and a generic exception its message text. -/
inductive ErrMsg where
  | keyError (key : String)
  | apiException (code : Int) (message : String)
  | requestException (message : String)
  | other (message : String)
deriving DecidableEq, Repr

/-- One structured log line; each constructor corresponds to one
`logger.*` call site in the source and carries exactly the interpolated
data.  In particular `binanceApiError` carries `e.status_code` and
`e.message`, mirroring the handler line
`logger.error(f"Binance API Error: {e.status_code} - {e.message}")`. -/
inductive LogLine where
  | invalidSide (side : String)
  | invalidSymbol (symbol : String)
  | invalidQuantity (q : ℚ)
  | invalidPrice (p : ℚ)
  | invalidTimeInForce (t : String)
  | symbolVerificationFailed
  | requestDump (orderType : String) (params : Params)
  | responseDump (resp : Params)
  | marketOrderPlaced
  | limitOrderPlaced
  | stopLimitOrderPlaced
  | orderIdLine (v : Value)
  | algoIdLine (v : Value)
  | statusLine (v : Value)
  | noOrderIdWarning
  | binanceApiError (statusCode : Int) (message : String)
  | binanceRequestError (message : String)
  | unexpectedMarketError (e : ErrMsg)
  | unexpectedLimitError (e : ErrMsg)
  | stopLimitError (e : ErrMsg)
  | balanceRetrieved
  | balanceError (e : ErrMsg)
  | openOrdersRetrieved (n : Nat)
  | positionsRetrieved (n : Nat)
  | positionsError (e : ErrMsg)
deriving DecidableEq, Repr

/-- Outcome of one `self.client.futures_create_order(**params)` call:
either the returned response dict, or one of the exception classes the
`except` clauses of the source distinguish.  `apiError` models
`BinanceAPIException`, a library exception built from an exchange error
payload `{code, msg}` and the HTTP response: its `status_code` field is
the HTTP status and its `code` / `message` fields carry the `code` / `msg`
of the payload. -/
inductive ExchangeOutcome where
  | ok (response : Params)
  | apiError (statusCode : Int) (code : Int) (message : String)
  | requestError (message : String)
  | otherError (message : String)
deriving DecidableEq, Repr

/-- One per-asset record of the `futures_account()` response, with the
fields `get_account_balance` reads. -/
structure AssetEntry where
  asset : String
  walletBalance : ℚ
  availableBalance : ℚ
deriving DecidableEq, Repr

/-- The `futures_account()` response, as read by `get_account_balance`:
`account.get(...)` of the two top-level balances and of the asset list
(`none` = key absent). -/
structure AccountInfo where
  totalWalletBalance : Option Value
  availableBalance : Option Value
  assets : Option (List AssetEntry)
deriving DecidableEq, Repr

/-- One record of the `futures_position_information` response, with the
fields the source reads. -/
structure PositionInfo where
  symbol : String
  positionAmt : ℚ
  entryPrice : ℚ
  unRealizedProfit : ℚ
deriving DecidableEq, Repr

/-- The external `binance` client collaborator: one field per client
method the modelled core calls.  `futures_exchange_info` is the projected
symbol list `[s["symbol"] for s in info["symbols"]]` when the fetch
succeeds and `none` when anything in the fetch raises;
`futures_create_order` maps the request params to what the call does; the
read endpoints are `none` when they raise. -/
structure Env where
  futures_exchange_info : Option (List String)
  futures_create_order : Params → ExchangeOutcome
  futures_account : Option AccountInfo
  futures_position_information : Option String → Option (List PositionInfo)

/-- Result of one operation of the core: the Python return value, the log
trail, how many catalog fetches (`futures_exchange_info`) were issued and
the parameter dicts of the outgoing `futures_create_order` calls in
order. -/
structure ExecResult (α : Type) where
  result : Option α
  logs : List LogLine
  catalogCalls : Nat
  orderCalls : List Params
deriving DecidableEq, Repr

/-- `BinanceBot._validate_symbol`, boolean part: fetch the exchange info,
project the symbol names and test membership of the upper-cased input;
any exception (the bare `except:`) returns `False`. -/
def validate_symbol (env : Env) (symbol : String) : Bool :=
  match env.futures_exchange_info with
  | some symbols => pyUpper symbol ∈ symbols
  | none => false

/-- The lines `_validate_symbol` logs: the (literal, un-interpolated)
verification-failed error exactly when the fetch raised. -/
def validate_symbol_logs (env : Env) : List LogLine :=
  match env.futures_exchange_info with
  | some _ => []
  | none => [.symbolVerificationFailed]

/-- The `params` dict `place_market_order` builds. -/
def marketParams (symbol side : String) (quantity : ℚ) : Params :=
  [("symbol", .str symbol), ("side", .str side),
   ("type", .str "MARKET"), ("quantity", .num quantity)]

/-- The `params` dict `place_limit_order` builds. -/
def limitParams (symbol side : String) (quantity price : ℚ)
    (time_in_force : String) : Params :=
  [("symbol", .str symbol), ("side", .str side),
   ("type", .str "LIMIT"), ("quantity", .num quantity),
   ("price", .num price), ("timeInForce", .str time_in_force)]

/-- The `params` dict `place_stop_limit_order` builds: the exchange-facing
`price` field carries `limit_price` and `stopPrice` carries `stop_price`. -/
def stopLimitParams (symbol side : String)
    (quantity stop_price limit_price : ℚ) (time_in_force : String) : Params :=
  [("symbol", .str symbol), ("side", .str side),
   ("type", .str "STOP"), ("quantity", .num quantity),
   ("price", .num limit_price), ("stopPrice", .num stop_price),
   ("timeInForce", .str time_in_force)]

/-- `BinanceBot.place_market_order`. -/
def place_market_order (env : Env) (symbol side : String) (quantity : ℚ) :
    ExecResult Params :=
  let side := pyUpper side
  let symbol := pyUpper symbol
  if side ∉ ["BUY", "SELL"] then
    ⟨none, [.invalidSide side], 0, []⟩
  else if ¬ validate_symbol env symbol then
    ⟨none, validate_symbol_logs env ++ [.invalidSymbol symbol], 1, []⟩
  else if quantity ≤ 0 then
    ⟨none, validate_symbol_logs env ++ [.invalidQuantity quantity], 1, []⟩
  else
    let params := marketParams symbol side quantity
    let pre := validate_symbol_logs env ++ [.requestDump "MARKET" params]
    match env.futures_create_order params with
    | .ok order =>
      let pre := pre ++ [.responseDump order, .marketOrderPlaced]
      match dictGet order "orderId" with
      | none =>
        ⟨none, pre ++ [.unexpectedMarketError (.keyError "orderId")], 1, [params]⟩
      | some oid =>
        match dictGet order "status" with
        | none =>
          ⟨none, pre ++ [.orderIdLine oid,
            .unexpectedMarketError (.keyError "status")], 1, [params]⟩
        | some st =>
          ⟨some order, pre ++ [.orderIdLine oid, .statusLine st], 1, [params]⟩
    | .apiError sc _code m =>
      ⟨none, pre ++ [.binanceApiError sc m], 1, [params]⟩
    | .requestError m =>
      ⟨none, pre ++ [.binanceRequestError m], 1, [params]⟩
    | .otherError m =>
      ⟨none, pre ++ [.unexpectedMarketError (.other m)], 1, [params]⟩

/-- `BinanceBot.place_limit_order` (the default `time_in_force="GTC"` is
made explicit at call sites). -/
def place_limit_order (env : Env) (symbol side : String) (quantity price : ℚ)
    (time_in_force : String) : ExecResult Params :=
  let side := pyUpper side
  let symbol := pyUpper symbol
  let time_in_force := pyUpper time_in_force
  if side ∉ ["BUY", "SELL"] then
    ⟨none, [.invalidSide side], 0, []⟩
  else if ¬ validate_symbol env symbol then
    ⟨none, validate_symbol_logs env ++ [.invalidSymbol symbol], 1, []⟩
  else if quantity ≤ 0 then
    ⟨none, validate_symbol_logs env ++ [.invalidQuantity quantity], 1, []⟩
  else if price ≤ 0 then
    ⟨none, validate_symbol_logs env ++ [.invalidPrice price], 1, []⟩
  else if time_in_force ∉ ["GTC", "IOC", "FOK"] then
    ⟨none, validate_symbol_logs env ++ [.invalidTimeInForce time_in_force], 1, []⟩
  else
    let params := limitParams symbol side quantity price time_in_force
    let pre := validate_symbol_logs env ++ [.requestDump "LIMIT" params]
    match env.futures_create_order params with
    | .ok order =>
      let pre := pre ++ [.responseDump order, .limitOrderPlaced]
      match dictGet order "orderId" with
      | none =>
        ⟨none, pre ++ [.unexpectedLimitError (.keyError "orderId")], 1, [params]⟩
      | some oid =>
        match dictGet order "status" with
        | none =>
          ⟨none, pre ++ [.orderIdLine oid,
            .unexpectedLimitError (.keyError "status")], 1, [params]⟩
        | some st =>
          ⟨some order, pre ++ [.orderIdLine oid, .statusLine st], 1, [params]⟩
    | .apiError sc _code m =>
      ⟨none, pre ++ [.binanceApiError sc m], 1, [params]⟩
    | .requestError m =>
      ⟨none, pre ++ [.binanceRequestError m], 1, [params]⟩
    | .otherError m =>
      ⟨none, pre ++ [.unexpectedLimitError (.other m)], 1, [params]⟩

/-- `str(e)` as interpolated by the single `except Exception` handler of
`place_stop_limit_order`: a `BinanceAPIException` prints its exchange code
and message, a `BinanceRequestException` its message, any other exception
its text. -/
def stopLimitExcMsg : ExchangeOutcome → ErrMsg
  | .ok _ => .other ""
  | .apiError _ code m => .apiException code m
  | .requestError m => .requestException m
  | .otherError m => .other m

/-- `BinanceBot.place_stop_limit_order` (the default `time_in_force='GTC'`
made explicit at call sites).  The source validates side and symbol only —
quantity, stop price, limit price and time-in-force are passed through
unchecked — and a single `except Exception` covers every failure inside
the `try`. -/
def place_stop_limit_order (env : Env) (symbol side : String)
    (quantity stop_price limit_price : ℚ) (time_in_force : String) :
    ExecResult Params :=
  let side := pyUpper side
  let symbol := pyUpper symbol
  let time_in_force := pyUpper time_in_force
  if side ∉ ["BUY", "SELL"] then
    ⟨none, [.invalidSide side], 0, []⟩
  else if ¬ validate_symbol env symbol then
    ⟨none, validate_symbol_logs env ++ [.invalidSymbol symbol], 1, []⟩
  else
    let params := stopLimitParams symbol side quantity stop_price limit_price
      time_in_force
    let pre := validate_symbol_logs env ++ [.requestDump "STOP_LIMIT" params]
    match env.futures_create_order params with
    | .ok order =>
      let pre := pre ++ [.responseDump order, .stopLimitOrderPlaced]
      match dictGet order "orderId" with
      | some oid => ⟨some order, pre ++ [.orderIdLine oid], 1, [params]⟩
      | none =>
        match dictGet order "algoId" with
        | some aid => ⟨some order, pre ++ [.algoIdLine aid], 1, [params]⟩
        | none => ⟨some order, pre ++ [.noOrderIdWarning], 1, [params]⟩
    | outcome =>
      ⟨none, pre ++ [.stopLimitError (stopLimitExcMsg outcome)], 1, [params]⟩

/-- One entry of the `assets` list `get_account_balance` builds: the
`balance` field carries the `walletBalance` of the source asset and
`available` its `availableBalance`. -/
structure BalanceAsset where
  asset : String
  balance : ℚ
  available : ℚ
deriving DecidableEq, Repr

/-- The dict `get_account_balance` returns on success. -/
structure BalanceInfo where
  totalWalletBalance : Option Value
  availableBalance : Option Value
  assets : List BalanceAsset
deriving DecidableEq, Repr

/-- `BinanceBot.get_account_balance`: reads `futures_account()` and builds
the balance dict, keeping only assets with
`float(asset["walletBalance"]) > 0`; any exception returns `None`. -/
def get_account_balance (env : Env) : ExecResult BalanceInfo :=
  match env.futures_account with
  | none => ⟨none, [.balanceError (.other "account fetch failed")], 0, []⟩
  | some account =>
    let info : BalanceInfo :=
      { totalWalletBalance := account.totalWalletBalance
        availableBalance := account.availableBalance
        assets :=
          ((account.assets.getD []).filter (fun a => 0 < a.walletBalance)).map
            (fun a => ⟨a.asset, a.walletBalance, a.availableBalance⟩) }
    ⟨some info, [.balanceRetrieved], 0, []⟩

/-- `BinanceBot.get_position_info`: fetches position information (scoped
to `symbol.upper()` when a symbol is given) and keeps only entries with
`float(p["positionAmt"]) != 0`; any exception returns `None`. -/
def get_position_info (env : Env) (symbol : Option String) :
    ExecResult (List PositionInfo) :=
  match env.futures_position_information (symbol.map pyUpper) with
  | none => ⟨none, [.positionsError (.other "position fetch failed")], 0, []⟩
  | some positions =>
    let active := positions.filter (fun p => p.positionAmt ≠ 0)
    ⟨some active, [.positionsRetrieved active.length], 0, []⟩

/-! Concrete environments and payloads used to instantiate the general
theorems below on closed inputs. -/

/-- The rational 0.01, built structurally. -/
def q001 : ℚ := ⟨1, 100, by norm_num, by norm_num⟩

/-- A well-formed exchange acknowledgement carrying both keys the success
path reads. -/
def respOk : Params := [("orderId", .int 4001), ("status", .str "NEW")]

/-- A response acknowledging the order but carrying neither `orderId` nor
`status`. -/
def respNoKeys : Params := [("clientOrderId", .str "abc")]

/-- Environment builder: a catalog fetch result and a create-order
behaviour; the account/position endpoints are unused by the order paths. -/
def mkEnv (syms : Option (List String)) (create : Params → ExchangeOutcome) :
    Env :=
  { futures_exchange_info := syms
    futures_create_order := create
    futures_account := none
    futures_position_information := fun _ => none }

/-- Catalog knows BTCUSDT and ETHUSDT; every order is acknowledged. -/
def envOk : Env := mkEnv (some ["BTCUSDT", "ETHUSDT"]) (fun _ => .ok respOk)

/-- Catalog knows BTCUSDT; the exchange rejects every order with the
structured payload `{code: -2019, msg: "Margin is insufficient"}` carried
by a `BinanceAPIException` with HTTP status 400. -/
def envApi2019 : Env :=
  mkEnv (some ["BTCUSDT"]) (fun _ => .apiError 400 (-2019) "Margin is insufficient")

/-- Catalog knows BTCUSDT; every order attempt fails in the request layer
(`BinanceRequestException`), before reaching the exchange. -/
def envReqErr : Env :=
  mkEnv (some ["BTCUSDT"]) (fun _ => .requestError "connection dropped")

/-- The catalog fetch itself raises. -/
def envDown : Env := mkEnv none (fun _ => .ok respOk)

/-- Orders are acknowledged with a payload lacking `orderId` and
`status`. -/
def envNoKeys : Env := mkEnv (some ["BTCUSDT"]) (fun _ => .ok respNoKeys)

/-- Account endpoint payload used to instantiate the balance theorem: one
asset with positive, one with zero and one with negative wallet balance. -/
def sampleAccount : AccountInfo :=
  { totalWalletBalance := some (.str "97")
    availableBalance := some (.str "40")
    assets := some [⟨"USDT", 100, 40⟩, ⟨"BTC", 0, 0⟩, ⟨"ETH", -3, 1⟩] }

/-- Position endpoint payload: one open long, one flat, one open short. -/
def samplePositions : List PositionInfo :=
  [⟨"BTCUSDT", q001, 50000, 12⟩, ⟨"ETHUSDT", 0, 0, 0⟩, ⟨"BNBUSDT", -2, 300, -1⟩]

/-- Environment for the read-endpoint claims. -/
def envReads : Env :=
  { futures_exchange_info := some ["BTCUSDT"]
    futures_create_order := fun _ => .ok respOk
    futures_account := some sampleAccount
    futures_position_information := fun _ => some samplePositions }

/-- C7: `_validate_symbol` returns true exactly when the upper-cased input
symbol is a member of the fetched instrument list, and on a transport
failure of the catalog fetch it returns false while logging the failure
(the boolean return type itself records that nothing is raised). -/
theorem validate_symbol_membership_and_fail_closed (env : Env) (s : String) :
    (validate_symbol env s = true ↔
      ∃ syms, env.futures_exchange_info = some syms ∧ pyUpper s ∈ syms) ∧
    (env.futures_exchange_info = none →
      validate_symbol env s = false ∧
      validate_symbol_logs env = [.symbolVerificationFailed]) := by
  constructor
  · cases h : env.futures_exchange_info with
    | some syms => simp [validate_symbol, h]
    | none => simp [validate_symbol, h]
  · intro h
    simp [validate_symbol, validate_symbol_logs, h]

/-- C7 witness: on a concrete broken catalog, validation of BTCUSDT is
fail-closed and logged; on a concrete healthy catalog it is membership. -/
theorem validate_symbol_membership_and_fail_closed_witness :
    validate_symbol envDown "BTCUSDT" = false ∧
    validate_symbol_logs envDown = [.symbolVerificationFailed] :=
  (validate_symbol_membership_and_fail_closed envDown "BTCUSDT").2 rfl

/-- C9: every asset entry of a successfully returned balance snapshot has
strictly positive wallet balance (the `balance` field carries the source
asset wallet balance). -/
theorem get_account_balance_assets_positive (env : Env) (b : BalanceInfo)
    (h : (get_account_balance env).result = some b) :
    ∀ a ∈ b.assets, 0 < a.balance := by
  intro a ha
  cases hacc : env.futures_account with
  | none => simp [get_account_balance, hacc] at h
  | some account =>
    simp only [get_account_balance, hacc] at h
    cases h
    simp only [List.mem_map, List.mem_filter] at ha
    obtain ⟨x, ⟨-, hx⟩, rfl⟩ := ha
    exact of_decide_eq_true hx

/-- C9 witness: on the concrete account payload, the snapshot keeps only
the strictly positive USDT entry, and the theorem applies to it. -/
theorem get_account_balance_assets_positive_witness :
    0 < (BalanceAsset.mk "USDT" 100 40).balance :=
  get_account_balance_assets_positive envReads
    (BalanceInfo.mk (some (.str "97")) (some (.str "40")) [⟨"USDT", 100, 40⟩])
    (by decide) (BalanceAsset.mk "USDT" 100 40) (by decide)

/-- C10: every entry of a successfully returned position list has nonzero
position amount. -/
theorem get_position_info_nonzero (env : Env) (symbol : Option String)
    (l : List PositionInfo)
    (h : (get_position_info env symbol).result = some l) :
    ∀ p ∈ l, p.positionAmt ≠ 0 := by
  intro p hp
  cases hpos : env.futures_position_information (symbol.map pyUpper) with
  | none => simp [get_position_info, hpos] at h
  | some positions =>
    simp only [get_position_info, hpos] at h
    cases h
    exact of_decide_eq_true (List.mem_filter.mp hp).2

/-- C10 witness: on the concrete position payload, the flat ETHUSDT entry
is dropped and the theorem applies to the returned list. -/
theorem get_position_info_nonzero_witness :
    (PositionInfo.mk "BTCUSDT" q001 50000 12).positionAmt ≠ 0 :=
  get_position_info_nonzero envReads none
    [⟨"BTCUSDT", q001, 50000, 12⟩, ⟨"BNBUSDT", -2, 300, -1⟩]
    (by decide) (PositionInfo.mk "BTCUSDT" q001 50000 12) (by decide)

/-- C4: with any quantity ≤ 0, the market and limit entry points return
the failure value without issuing any order-creation call, and — once side
and symbol have passed — the single error reported is the invalid-quantity
rule. -/
theorem invalid_quantity_never_submits (env : Env) (symbol side tif : String)
    (q p : ℚ) (hq : q ≤ 0) :
    (place_market_order env symbol side q).result = none ∧
    (place_market_order env symbol side q).orderCalls = [] ∧
    (place_limit_order env symbol side q p tif).result = none ∧
    (place_limit_order env symbol side q p tif).orderCalls = [] ∧
    (pyUpper side ∈ ["BUY", "SELL"] →
      validate_symbol env (pyUpper symbol) = true →
      (place_market_order env symbol side q).logs =
        validate_symbol_logs env ++ [.invalidQuantity q] ∧
      (place_limit_order env symbol side q p tif).logs =
        validate_symbol_logs env ++ [.invalidQuantity q]) := by
  by_cases h1 : pyUpper side ∈ ["BUY", "SELL"]
  · by_cases h2 : validate_symbol env (pyUpper symbol) = true
    · simp [place_market_order, place_limit_order, h1, h2, hq]
    · simp [place_market_order, place_limit_order, h1, h2]
  · simp [place_market_order, place_limit_order, h1]

/-- C4 witness: a zero-quantity market and limit order against a healthy
catalog is rejected as invalid quantity with no exchange call. -/
theorem invalid_quantity_never_submits_witness :
    (place_market_order envOk "BTCUSDT" "BUY" 0).result = none ∧
    (place_market_order envOk "BTCUSDT" "BUY" 0).orderCalls = [] ∧
    (place_limit_order envOk "BTCUSDT" "BUY" 0 2 "GTC").result = none ∧
    (place_limit_order envOk "BTCUSDT" "BUY" 0 2 "GTC").orderCalls = [] ∧
    (place_market_order envOk "BTCUSDT" "BUY" 0).logs =
      validate_symbol_logs envOk ++ [.invalidQuantity 0] ∧
    (place_limit_order envOk "BTCUSDT" "BUY" 0 2 "GTC").logs =
      validate_symbol_logs envOk ++ [.invalidQuantity 0] := by
  have h := invalid_quantity_never_submits envOk "BTCUSDT" "BUY" "GTC" 0 2
    (by decide)
  exact ⟨h.1, h.2.1, h.2.2.1, h.2.2.2.1, h.2.2.2.2 (by decide) (by decide)⟩

/-- C6: with any price ≤ 0, the limit entry point returns the failure
value without issuing any order-creation call, and — when side, symbol and
quantity are all valid — the single error reported is the invalid-price
rule. -/
theorem invalid_price_never_submits (env : Env) (symbol side tif : String)
    (q p : ℚ) (hp : p ≤ 0) :
    (place_limit_order env symbol side q p tif).result = none ∧
    (place_limit_order env symbol side q p tif).orderCalls = [] ∧
    (pyUpper side ∈ ["BUY", "SELL"] →
      validate_symbol env (pyUpper symbol) = true → ¬ q ≤ 0 →
      (place_limit_order env symbol side q p tif).logs =
        validate_symbol_logs env ++ [.invalidPrice p]) := by
  by_cases h1 : pyUpper side ∈ ["BUY", "SELL"]
  · by_cases h2 : validate_symbol env (pyUpper symbol) = true
    · by_cases h3 : q ≤ 0
      · simp [place_limit_order, h1, h2, h3, hp]
      · simp [place_limit_order, h1, h2, h3, hp]
    · simp [place_limit_order, h1, h2]
  · simp [place_limit_order, h1]

/-- C6 witness: the specification scenario — a limit sell of 1.0 ETHUSDT
at price -5.0 fails on the price rule with no gateway call. -/
theorem invalid_price_never_submits_witness :
    (place_limit_order envOk "ETHUSDT" "SELL" 1 (-5) "GTC").result = none ∧
    (place_limit_order envOk "ETHUSDT" "SELL" 1 (-5) "GTC").orderCalls = [] ∧
    (place_limit_order envOk "ETHUSDT" "SELL" 1 (-5) "GTC").logs =
      validate_symbol_logs envOk ++ [.invalidPrice (-5)] := by
  have h := invalid_price_never_submits envOk "ETHUSDT" "SELL" "GTC" 1 (-5)
    (by decide)
  exact ⟨h.1, h.2.1, h.2.2 (by decide) (by decide) (by decide)⟩

/-- C5: `place_market_order` validates side, then symbol, then quantity,
returning exactly the first failing rule (an invalid side is reported
before any catalog fetch), and on the specification scenario
(`"btcusdt"`, `"buy"`, 0.01 with BTCUSDT in the catalog) it submits
exactly `{symbol: "BTCUSDT", side: "BUY", type: "MARKET", quantity: 0.01}`. -/
theorem market_validation_order_and_request (env : Env) (symbol side : String)
    (q : ℚ) :
    (pyUpper side ∉ ["BUY", "SELL"] →
      place_market_order env symbol side q =
        ⟨none, [.invalidSide (pyUpper side)], 0, []⟩) ∧
    (pyUpper side ∈ ["BUY", "SELL"] →
      validate_symbol env (pyUpper symbol) = false →
      place_market_order env symbol side q =
        ⟨none, validate_symbol_logs env ++ [.invalidSymbol (pyUpper symbol)],
         1, []⟩) ∧
    (pyUpper side ∈ ["BUY", "SELL"] →
      validate_symbol env (pyUpper symbol) = true → q ≤ 0 →
      place_market_order env symbol side q =
        ⟨none, validate_symbol_logs env ++ [.invalidQuantity q], 1, []⟩) ∧
    place_market_order envOk "btcusdt" "buy" q001 =
      ⟨some respOk,
       [.requestDump "MARKET" (marketParams "BTCUSDT" "BUY" q001),
        .responseDump respOk, .marketOrderPlaced,
        .orderIdLine (.int 4001), .statusLine (.str "NEW")],
       1, [marketParams "BTCUSDT" "BUY" q001]⟩ := by
  refine ⟨fun h1 => ?_, fun h1 h2 => ?_, fun h1 h2 h3 => ?_, by decide⟩
  · simp [place_market_order, h1]
  · simp [place_market_order, h1, h2]
  · simp [place_market_order, h1, h2, h3]

/-- C5 witness: each of the three first-failing-rule branches at a
concrete input. -/
theorem market_validation_order_and_request_witness :
    place_market_order envOk "BTCUSDT" "HOLD" 1 =
      ⟨none, [.invalidSide (pyUpper "HOLD")], 0, []⟩ ∧
    place_market_order envOk "DOGEUSDT" "BUY" 0 =
      ⟨none, validate_symbol_logs envOk ++
        [.invalidSymbol (pyUpper "DOGEUSDT")], 1, []⟩ ∧
    place_market_order envOk "BTCUSDT" "BUY" 0 =
      ⟨none, validate_symbol_logs envOk ++ [.invalidQuantity 0], 1, []⟩ :=
  ⟨(market_validation_order_and_request envOk "BTCUSDT" "HOLD" 1).1 (by decide),
   (market_validation_order_and_request envOk "DOGEUSDT" "BUY" 0).2.1
     (by decide) (by decide),
   (market_validation_order_and_request envOk "BTCUSDT" "BUY" 0).2.2.1
     (by decide) (by decide) (by decide)⟩

/-- Once side and symbol pass, `place_stop_limit_order` always issues
exactly one order-creation call, with the STOP params dict, whatever the
quantity, prices, time-in-force or exchange outcome. -/
theorem stop_limit_submits (env : Env) (symbol side tif : String)
    (q sp lp : ℚ)
    (hside : pyUpper side ∈ ["BUY", "SELL"])
    (hsym : validate_symbol env (pyUpper symbol) = true) :
    (place_stop_limit_order env symbol side q sp lp tif).orderCalls =
      [stopLimitParams (pyUpper symbol) (pyUpper side) q sp lp (pyUpper tif)] := by
  cases houtcome : env.futures_create_order
      (stopLimitParams (pyUpper symbol) (pyUpper side) q sp lp (pyUpper tif)) with
  | ok order =>
    cases h1 : dictGet order "orderId" with
    | some oid => simp [place_stop_limit_order, hside, hsym, houtcome, h1]
    | none =>
      cases h2 : dictGet order "algoId" <;>
        simp [place_stop_limit_order, hside, hsym, houtcome, h1, h2]
  | apiError sc c m => simp [place_stop_limit_order, hside, hsym, houtcome]
  | requestError m => simp [place_stop_limit_order, hside, hsym, houtcome]
  | otherError m => simp [place_stop_limit_order, hside, hsym, houtcome]

/-- C3: `place_stop_limit_order` validates side and symbol only — an
invalid side is rejected before any catalog fetch, an unknown symbol is
rejected after it, and once both pass it submits for every quantity, stop
price and limit price (positive or not) — and the outgoing request has
type STOP, its `price` field carrying the limit price, its `stopPrice`
field carrying the stop price, and symbol and side upper-cased. -/
theorem stop_limit_shape (env : Env) (symbol side tif : String)
    (q sp lp : ℚ) :
    (pyUpper side ∉ ["BUY", "SELL"] →
      place_stop_limit_order env symbol side q sp lp tif =
        ⟨none, [.invalidSide (pyUpper side)], 0, []⟩) ∧
    (pyUpper side ∈ ["BUY", "SELL"] →
      validate_symbol env (pyUpper symbol) = false →
      place_stop_limit_order env symbol side q sp lp tif =
        ⟨none, validate_symbol_logs env ++ [.invalidSymbol (pyUpper symbol)],
         1, []⟩) ∧
    (pyUpper side ∈ ["BUY", "SELL"] →
      validate_symbol env (pyUpper symbol) = true →
      (place_stop_limit_order env symbol side q sp lp tif).orderCalls =
        [stopLimitParams (pyUpper symbol) (pyUpper side) q sp lp
          (pyUpper tif)]) ∧
    dictGet (stopLimitParams (pyUpper symbol) (pyUpper side) q sp lp
      (pyUpper tif)) "type" = some (.str "STOP") ∧
    dictGet (stopLimitParams (pyUpper symbol) (pyUpper side) q sp lp
      (pyUpper tif)) "price" = some (.num lp) ∧
    dictGet (stopLimitParams (pyUpper symbol) (pyUpper side) q sp lp
      (pyUpper tif)) "stopPrice" = some (.num sp) ∧
    dictGet (stopLimitParams (pyUpper symbol) (pyUpper side) q sp lp
      (pyUpper tif)) "symbol" = some (.str (pyUpper symbol)) ∧
    dictGet (stopLimitParams (pyUpper symbol) (pyUpper side) q sp lp
      (pyUpper tif)) "side" = some (.str (pyUpper side)) := by
  refine ⟨fun h1 => by simp [place_stop_limit_order, h1],
    fun h1 h2 => by simp [place_stop_limit_order, h1, h2],
    fun h1 h2 => stop_limit_submits env symbol side tif q sp lp h1 h2,
    ?_, ?_, ?_, ?_, ?_⟩ <;> simp [stopLimitParams, dictGet]

/-- C3 witness: an invalid side is rejected with no catalog fetch, an
unknown symbol is rejected with no submission, and a lower-case buy on
BTCUSDT with negative quantity and prices is still submitted, with the
STOP field mapping. -/
theorem stop_limit_shape_witness :
    place_stop_limit_order envOk "BTCUSDT" "HOLD" 1 2 3 "GTC" =
      ⟨none, [.invalidSide (pyUpper "HOLD")], 0, []⟩ ∧
    place_stop_limit_order envOk "DOGEUSDT" "BUY" 1 2 3 "GTC" =
      ⟨none, validate_symbol_logs envOk ++
        [.invalidSymbol (pyUpper "DOGEUSDT")], 1, []⟩ ∧
    (place_stop_limit_order envOk "btcusdt" "buy" (-1) (-2) (-3) "GTC").orderCalls =
      [stopLimitParams "BTCUSDT" "BUY" (-1) (-2) (-3) "GTC"] ∧
    dictGet (stopLimitParams "BTCUSDT" "BUY" (-1) (-2) (-3) "GTC") "type" =
      some (.str "STOP") ∧
    dictGet (stopLimitParams "BTCUSDT" "BUY" (-1) (-2) (-3) "GTC") "price" =
      some (.num (-3)) ∧
    dictGet (stopLimitParams "BTCUSDT" "BUY" (-1) (-2) (-3) "GTC") "stopPrice" =
      some (.num (-2)) ∧
    dictGet (stopLimitParams "BTCUSDT" "BUY" (-1) (-2) (-3) "GTC") "symbol" =
      some (.str "BTCUSDT") ∧
    dictGet (stopLimitParams "BTCUSDT" "BUY" (-1) (-2) (-3) "GTC") "side" =
      some (.str "BUY") :=
  ⟨(stop_limit_shape envOk "BTCUSDT" "HOLD" "GTC" 1 2 3).1 (by decide),
   (stop_limit_shape envOk "DOGEUSDT" "BUY" "GTC" 1 2 3).2.1
     (by decide) (by decide),
   (stop_limit_shape envOk "btcusdt" "buy" "GTC" (-1) (-2) (-3)).2.2.1
     (by decide) (by decide),
   (stop_limit_shape envOk "btcusdt" "buy" "GTC" (-1) (-2) (-3)).2.2.2.1,
   (stop_limit_shape envOk "btcusdt" "buy" "GTC" (-1) (-2) (-3)).2.2.2.2.1,
   (stop_limit_shape envOk "btcusdt" "buy" "GTC" (-1) (-2) (-3)).2.2.2.2.2.1,
   (stop_limit_shape envOk "btcusdt" "buy" "GTC" (-1) (-2) (-3)).2.2.2.2.2.2.1,
   (stop_limit_shape envOk "btcusdt" "buy" "GTC" (-1) (-2) (-3)).2.2.2.2.2.2.2⟩

/-- C2 counterexample: with the invalid time-in-force "XYZ" and a valid
side and symbol, `place_stop_limit_order` does NOT fail — it submits the
order (one gateway call, "XYZ" passed through) and returns the exchange
acknowledgement, never reporting an invalid time-in-force. -/
theorem stop_limit_accepts_bad_tif :
    pyUpper "XYZ" ∉ ["GTC", "IOC", "FOK"] ∧
    (place_stop_limit_order envOk "BTCUSDT" "BUY" 1 2 3 "XYZ").orderCalls =
      [stopLimitParams "BTCUSDT" "BUY" 1 2 3 "XYZ"] ∧
    (place_stop_limit_order envOk "BTCUSDT" "BUY" 1 2 3 "XYZ").result =
      some respOk ∧
    LogLine.invalidTimeInForce "XYZ" ∉
      (place_stop_limit_order envOk "BTCUSDT" "BUY" 1 2 3 "XYZ").logs := by
  decide

/-- C2 amended: for a time-in-force outside {GTC, IOC, FOK}
(case-insensitively), `place_limit_order` fails with the invalid
time-in-force rule and never submits; `place_stop_limit_order`, however,
performs no time-in-force validation at all — given a valid side and
symbol it submits the order with the upper-cased value passed through. -/
theorem limit_tif_validated_stop_limit_not (env : Env)
    (symbol side tif : String) (q p sp lp : ℚ)
    (htif : pyUpper tif ∉ ["GTC", "IOC", "FOK"]) :
    (place_limit_order env symbol side q p tif).result = none ∧
    (place_limit_order env symbol side q p tif).orderCalls = [] ∧
    (pyUpper side ∈ ["BUY", "SELL"] →
      validate_symbol env (pyUpper symbol) = true → ¬ q ≤ 0 → ¬ p ≤ 0 →
      (place_limit_order env symbol side q p tif).logs =
        validate_symbol_logs env ++ [.invalidTimeInForce (pyUpper tif)]) ∧
    (pyUpper side ∈ ["BUY", "SELL"] →
      validate_symbol env (pyUpper symbol) = true →
      (place_stop_limit_order env symbol side q sp lp tif).orderCalls =
        [stopLimitParams (pyUpper symbol) (pyUpper side) q sp lp
          (pyUpper tif)]) := by
  refine ⟨?_, ?_,
    fun h1 h2 h3 h4 => by simp [place_limit_order, h1, h2, h3, h4, htif],
    fun h1 h2 => stop_limit_submits env symbol side tif q sp lp h1 h2⟩ <;>
  · by_cases h1 : pyUpper side ∈ ["BUY", "SELL"]
    · by_cases h2 : validate_symbol env (pyUpper symbol) = true
      · by_cases h3 : q ≤ 0
        · simp [place_limit_order, h1, h2, h3]
        · by_cases h4 : p ≤ 0 <;>
            simp [place_limit_order, h1, h2, h3, h4, htif]
      · simp [place_limit_order, h1, h2]
    · simp [place_limit_order, h1]

/-- C2 amended witness: at time-in-force "XYZ", a valid limit order is
rejected with the invalid time-in-force rule and no call, while the same
stop-limit order goes straight out. -/
theorem limit_tif_validated_stop_limit_not_witness :
    (place_limit_order envOk "BTCUSDT" "BUY" 1 2 "XYZ").result = none ∧
    (place_limit_order envOk "BTCUSDT" "BUY" 1 2 "XYZ").orderCalls = [] ∧
    (place_limit_order envOk "BTCUSDT" "BUY" 1 2 "XYZ").logs =
      validate_symbol_logs envOk ++ [.invalidTimeInForce (pyUpper "XYZ")] ∧
    (place_stop_limit_order envOk "BTCUSDT" "BUY" 1 2 3 "XYZ").orderCalls =
      [stopLimitParams (pyUpper "BTCUSDT") (pyUpper "BUY") 1 2 3
        (pyUpper "XYZ")] := by
  have h := limit_tif_validated_stop_limit_not envOk "BTCUSDT" "BUY" "XYZ"
    1 2 2 3 (by decide)
  exact ⟨h.1, h.2.1,
    h.2.2.1 (by decide) (by decide) (by decide) (by decide),
    h.2.2.2 (by decide) (by decide)⟩

/-- C1 counterexample: on the exchange error payload
`{code: -2019, msg: "Margin is insufficient"}` (HTTP status 400) the
submit operations return `none` — the same unclassified failure value
returned on a request-layer failure — and the only classification is a log
line carrying the HTTP status 400 and the message; no log line carries the
exchange code -2019. -/
theorem api_error_unclassified_and_code_dropped :
    (place_market_order envApi2019 "BTCUSDT" "BUY" 1).result = none ∧
    (place_limit_order envApi2019 "BTCUSDT" "BUY" 1 2 "GTC").result = none ∧
    (place_market_order envReqErr "BTCUSDT" "BUY" 1).result = none ∧
    (place_market_order envApi2019 "BTCUSDT" "BUY" 1).logs =
      [.requestDump "MARKET" (marketParams "BTCUSDT" "BUY" 1),
       .binanceApiError 400 "Margin is insufficient"] ∧
    LogLine.binanceApiError (-2019) "Margin is insufficient" ∉
      (place_market_order envApi2019 "BTCUSDT" "BUY" 1).logs ∧
    LogLine.binanceApiError (-2019) "Margin is insufficient" ∉
      (place_limit_order envApi2019 "BTCUSDT" "BUY" 1 2 "GTC").logs := by
  decide

/-- C1 amended: when the exchange answers a structured error
(`BinanceAPIException` with HTTP status, exchange code and message), the
market and limit submit operations catch it in a dedicated branch, log a
Binance-API-Error line carrying the HTTP status code and the exchange
message — the exchange-provided numeric code is not surfaced — and return
`None`, the same unclassified failure value as every other failure
branch. -/
theorem api_error_logged_status_returns_none (env : Env)
    (symbol side tif : String) (q p : ℚ) (sc code : Int) (m : String)
    (hside : pyUpper side ∈ ["BUY", "SELL"])
    (hsym : validate_symbol env (pyUpper symbol) = true)
    (hq : ¬ q ≤ 0) (hp : ¬ p ≤ 0)
    (htif : pyUpper tif ∈ ["GTC", "IOC", "FOK"])
    (hm : env.futures_create_order
        (marketParams (pyUpper symbol) (pyUpper side) q) = .apiError sc code m)
    (hl : env.futures_create_order
        (limitParams (pyUpper symbol) (pyUpper side) q p (pyUpper tif)) =
      .apiError sc code m) :
    place_market_order env symbol side q =
      ⟨none, validate_symbol_logs env ++
        [.requestDump "MARKET" (marketParams (pyUpper symbol) (pyUpper side) q),
         .binanceApiError sc m],
       1, [marketParams (pyUpper symbol) (pyUpper side) q]⟩ ∧
    place_limit_order env symbol side q p tif =
      ⟨none, validate_symbol_logs env ++
        [.requestDump "LIMIT"
          (limitParams (pyUpper symbol) (pyUpper side) q p (pyUpper tif)),
         .binanceApiError sc m],
       1, [limitParams (pyUpper symbol) (pyUpper side) q p (pyUpper tif)]⟩ := by
  constructor
  · simp [place_market_order, hside, hsym, hq, hm]
  · simp [place_limit_order, hside, hsym, hq, hp, htif, hl]

/-- C1 amended witness: the -2019 margin rejection at HTTP status 400, on
a concrete valid market and limit order. -/
theorem api_error_logged_status_returns_none_witness :
    place_market_order envApi2019 "BTCUSDT" "BUY" 1 =
      ⟨none, validate_symbol_logs envApi2019 ++
        [.requestDump "MARKET" (marketParams "BTCUSDT" "BUY" 1),
         .binanceApiError 400 "Margin is insufficient"],
       1, [marketParams "BTCUSDT" "BUY" 1]⟩ ∧
    place_limit_order envApi2019 "BTCUSDT" "BUY" 1 2 "GTC" =
      ⟨none, validate_symbol_logs envApi2019 ++
        [.requestDump "LIMIT" (limitParams "BTCUSDT" "BUY" 1 2 "GTC"),
         .binanceApiError 400 "Margin is insufficient"],
       1, [limitParams "BTCUSDT" "BUY" 1 2 "GTC"]⟩ :=
  api_error_logged_status_returns_none envApi2019 "BTCUSDT" "BUY" "GTC"
    1 2 400 (-2019) "Margin is insufficient"
    (by decide) (by decide) (by decide) (by decide) (by decide) rfl rfl

/-- C8: when the exchange acknowledges a market or limit order with a
payload lacking `orderId` or `status`, the `KeyError` raised while logging
is swallowed by the generic handler: the operation returns `None` even
though exactly one order-creation call went out; the operations return the
response exactly when both keys are present. -/
theorem missing_response_keys_swallowed (env : Env)
    (symbol side tif : String) (q p : ℚ) (resp : Params)
    (hside : pyUpper side ∈ ["BUY", "SELL"])
    (hsym : validate_symbol env (pyUpper symbol) = true)
    (hq : ¬ q ≤ 0) (hp : ¬ p ≤ 0)
    (htif : pyUpper tif ∈ ["GTC", "IOC", "FOK"])
    (hm : env.futures_create_order
        (marketParams (pyUpper symbol) (pyUpper side) q) = .ok resp)
    (hl : env.futures_create_order
        (limitParams (pyUpper symbol) (pyUpper side) q p (pyUpper tif)) =
      .ok resp) :
    ((place_market_order env symbol side q).result = some resp ↔
      (dictGet resp "orderId").isSome ∧ (dictGet resp "status").isSome) ∧
    ((place_limit_order env symbol side q p tif).result = some resp ↔
      (dictGet resp "orderId").isSome ∧ (dictGet resp "status").isSome) ∧
    (dictGet resp "orderId" = none ∨ dictGet resp "status" = none →
      (place_market_order env symbol side q).result = none ∧
      (place_market_order env symbol side q).orderCalls =
        [marketParams (pyUpper symbol) (pyUpper side) q] ∧
      (place_limit_order env symbol side q p tif).result = none ∧
      (place_limit_order env symbol side q p tif).orderCalls =
        [limitParams (pyUpper symbol) (pyUpper side) q p (pyUpper tif)]) := by
  cases h1 : dictGet resp "orderId" <;> cases h2 : dictGet resp "status" <;>
    simp [place_market_order, place_limit_order,
      hside, hsym, hq, hp, htif, hm, hl, h1, h2]

/-- C8 witness: an acknowledgement carrying only `clientOrderId` makes a
fully valid market and limit order return `None` after one outgoing call
each. -/
theorem missing_response_keys_swallowed_witness :
    (place_market_order envNoKeys "BTCUSDT" "BUY" 1).result = none ∧
    (place_market_order envNoKeys "BTCUSDT" "BUY" 1).orderCalls =
      [marketParams "BTCUSDT" "BUY" 1] ∧
    (place_limit_order envNoKeys "BTCUSDT" "BUY" 1 2 "GTC").result = none ∧
    (place_limit_order envNoKeys "BTCUSDT" "BUY" 1 2 "GTC").orderCalls =
      [limitParams "BTCUSDT" "BUY" 1 2 "GTC"] :=
  (missing_response_keys_swallowed envNoKeys "BTCUSDT" "BUY" "GTC" 1 2
      respNoKeys (by decide) (by decide) (by decide) (by decide) (by decide)
      rfl rfl).2.2 (Or.inl (by decide))
